import Mathlib

/-!
Verification of the packet crafting/dissection core (DNS, IPv6,
IEEE 802.11 tagged parameters, interface resolution) against its
natural-language specification.  The definitions below are a shallow
embedding of the C++ sources `dns.cpp`, `ipv6.cpp`,
`network_interface.cpp` (which also contains the IEEE 802.11
implementation).  Bytes are modelled as `Nat` values below 256; byte
buffers as `List Nat`; machine-integer wraparound is written with
explicit `% 2^w`; fallible code returns `Except`.  Loops whose C++
counterparts are not structurally recursive (domain-name walks can
follow compression pointers arbitrarily) take an explicit fuel
argument; wrappers pass a fuel that dominates every terminating run.
-/

/-- Failure outcomes of the embedded code.  `malformed` models a thrown
`malformed_packet`, `invalidInterface` a thrown `invalid_interface`,
`outOfFuel` marks a computation that did not finish within the given
fuel (i.e. potential divergence of the C++ loop), and `oob` marks an
out-of-bounds raw-pointer read that is undefined behaviour in C++. -/
inductive CErr where
  | malformed
  | invalidInterface
  | outOfFuel
  | oob
deriving DecidableEq

/-- Big-endian read of two bytes, as done by `Endian::be_to_host` on a
2-byte `memcpy`. -/
def be16 (hi lo : Nat) : Nat := hi * 256 + lo

/-- Big-endian read of four bytes. -/
def be32 (b0 b1 b2 b3 : Nat) : Nat := ((b0 * 256 + b1) * 256 + b2) * 256 + b3

namespace Tins

/-- The test `(value & 0xc0)` used by `DNS::skip_to_dname_end`,
`DNS::compose_name` and `DNS::update_dname` to classify a domain-name
length byte as a two-byte compression pointer. -/
def is_offset_label (b : Nat) : Bool := b &&& 0xC0 != 0

/-- Loop body of `DNS::skip_to_dname_end` (dns.cpp).  `pos` is the
stream position inside `records_data`; the result is the position after
the domain name.  Stream reads and skips fail with `malformed` on
under-run; the `while (stream)` guard ends the loop silently at the end
of the buffer.  The fuel argument only bounds the number of loop
iterations; `skip_to_dname_end` passes enough fuel for every run. -/
def skip_dname_loop (data : List Nat) : Nat → Nat → Except CErr Nat
  | 0, _ => .error .outOfFuel
  | fuel + 1, pos =>
    if pos < data.length then
      let b := data.getD pos 0
      if b = 0 then .ok (pos + 1)
      else if is_offset_label b then
        if data.length < pos + 2 then .error .malformed else .ok (pos + 2)
      else
        if data.length < pos + 1 + b then .error .malformed
        else skip_dname_loop data fuel (pos + 1 + b)
    else .ok pos

/-- `DNS::skip_to_dname_end` (dns.cpp).  Each iteration advances the
position by at least one, so `data.length + 1` fuel covers every run. -/
def skip_to_dname_end (data : List Nat) (pos : Nat) : Except CErr Nat :=
  skip_dname_loop data (data.length + 1) pos

/-- Per-question loop of the `DNS(const uint8_t*, uint32_t)` constructor:
skip a domain name, then skip the 4 type/class bytes. -/
def skip_questions (data : List Nat) : Nat → Nat → Except CErr Nat
  | 0, pos => .ok pos
  | n + 1, pos => do
    let p1 ← skip_to_dname_end data pos
    if data.length < p1 + 4 then .error .malformed
    else skip_questions data n (p1 + 4)

/-- `DNS::skip_to_section_end` (dns.cpp): for each record skip the name,
the 8 fixed type/class/TTL bytes, read the big-endian data size, check
`can_read` and skip the data. -/
def skip_to_section_end (data : List Nat) : Nat → Nat → Except CErr Nat
  | 0, pos => .ok pos
  | n + 1, pos => do
    let p1 ← skip_to_dname_end data pos
    if data.length < p1 + 10 then .error .malformed
    else
      let dsize := be16 (data.getD (p1 + 8) 0) (data.getD (p1 + 9) 0)
      if data.length - (p1 + 10) < dsize then .error .malformed
      else skip_to_section_end data n (p1 + 10 + dsize)

/-- The in-memory state of a `DNS` PDU: the four raw id/flags header
bytes, the four host-order section counts, the `records_data_` byte
vector and the three maintained section offsets. -/
structure DNSState where
  idFlags : List Nat
  questions : Nat
  answers : Nat
  authority : Nat
  additional : Nat
  records : List Nat
  answers_idx : Nat
  authority_idx : Nat
  additional_idx : Nat
deriving DecidableEq

/-- The `DNS(const uint8_t*, uint32_t)` constructor (dns.cpp): read the
12-byte header, copy the rest into `records_data_`, then locate
`answers_idx_`, `authority_idx_`, `additional_idx_` by skipping the
question and record sections. -/
def parse_dns (buf : List Nat) : Except CErr DNSState :=
  if buf.length < 12 then .error .malformed
  else
    let nq := be16 (buf.getD 4 0) (buf.getD 5 0)
    let na := be16 (buf.getD 6 0) (buf.getD 7 0)
    let nauth := be16 (buf.getD 8 0) (buf.getD 9 0)
    let nadd := be16 (buf.getD 10 0) (buf.getD 11 0)
    let rd := buf.drop 12
    if rd.isEmpty then .ok ⟨buf.take 4, nq, na, nauth, nadd, rd, 0, 0, 0⟩
    else do
      let a1 ← skip_questions rd nq 0
      let a2 ← skip_to_section_end rd na a1
      let a3 ← skip_to_section_end rd nauth a2
      .ok ⟨buf.take 4, nq, na, nauth, nadd, rd, a1, a2, a3⟩

/-- `DNS::contains_dname` (dns.cpp): MX(15), CNAME(5), PTR(12), NS(2).
Note that DNAME(39) is absent. -/
def contains_dname (t : Nat) : Bool := t == 15 || t == 5 || t == 12 || t == 2

/-- Loop body of `DNS::update_dname` (dns.cpp): walk a domain name and,
at its terminating compression pointer, rewrite the stored 14-bit target
to `(index + offset) | 0xc000` when `index > threshold`.  The source has
no length checks ("records should already be valid"); walking past the
end of the buffer returns unchanged data, standing in for the C++
undefined behaviour. -/
def update_dname_loop (data : List Nat) (threshold offset : Nat) :
    Nat → Nat → List Nat × Nat
  | 0, pos => (data, pos)
  | fuel + 1, pos =>
    if pos < data.length then
      let b := data.getD pos 0
      if b = 0 then (data, pos)
      else if is_offset_label b then
        let idx := (b * 256 + data.getD (pos + 1) 0) &&& 0x3FFF
        if threshold < idx then
          let v := ((idx + offset) &&& 0xFFFF) ||| 0xC000
          ((data.set pos (v / 256)).set (pos + 1) (v % 256), pos + 2)
        else (data, pos + 2)
      else update_dname_loop data threshold offset fuel (pos + 1 + b)
    else (data, pos)

/-- `DNS::update_dname` (dns.cpp), with fuel large enough for every
terminating walk. -/
def update_dname (data : List Nat) (threshold offset pos : Nat) :
    List Nat × Nat :=
  update_dname_loop data threshold offset (data.length + 1) pos

/-- Per-record loop of `DNS::update_records` (dns.cpp): rewrite the
record's owner-name pointer, then read type and data size (unchecked
`memcpy` reads, modelled with `getD`), skip MX preference, rewrite the
rdata domain name only for `contains_dname` types, and step to the next
record. -/
def update_records_loop (threshold offset : Nat) :
    Nat → List Nat → Nat → List Nat
  | 0, data, _ => data
  | n + 1, data, pos =>
    let r := update_dname data threshold offset pos
    let d1 := r.1
    let p1 := r.2
    let rtype := be16 (d1.getD p1 0) (d1.getD (p1 + 1) 0)
    let p2 := p1 + 8
    let dsize0 := be16 (d1.getD p2 0) (d1.getD (p2 + 1) 0)
    let p3 := p2 + 2
    let p4 := if rtype = 15 then p3 + 2 else p3
    let dsize := if rtype = 15 then (dsize0 + 65534) % 65536 else dsize0
    let d2 := if contains_dname rtype then (update_dname d1 threshold offset p4).1 else d1
    update_records_loop threshold offset n d2 (p4 + dsize)

/-- `DNS::update_records` (dns.cpp): walk the section when it starts
inside `records_data_`, then shift the section offset by the insertion
size.  Returns the updated bytes and the updated section offset. -/
def update_records (data : List Nat) (section_start num threshold offset : Nat) :
    List Nat × Nat :=
  (if section_start < data.length then
    update_records_loop threshold offset num data section_start
  else data,
   section_start + offset)

/-- First occurrence of a dot at or after `start`, as
`std::string::find('.', start)` in `DNS::encode_domain_name`. -/
def find_dot (dn : List Nat) (start : Nat) : Option Nat :=
  (List.range dn.length).find? (fun i => decide (start ≤ i) && (dn.getD i 0 == 46))

/-- Loop of `DNS::encode_domain_name` (dns.cpp): the search for the next
dot starts at `last_index + 1`, each label is emitted as a length byte
(truncated to `char`) followed by its bytes. -/
def encode_dn_loop (dn : List Nat) : Nat → Nat → List Nat
  | 0, _ => []
  | fuel + 1, last =>
    match find_dot dn (last + 1) with
    | some idx =>
      ((idx - last) % 256) :: ((dn.drop last).take (idx - last))
        ++ encode_dn_loop dn fuel (idx + 1)
    | none => ((dn.length - last) % 256) :: dn.drop last

/-- `DNS::encode_domain_name` (dns.cpp): length-prefixed labels followed
by the terminating zero label; the empty name encodes as just the zero
byte. -/
def encode_domain_name (dn : List Nat) : List Nat :=
  (if dn.isEmpty then [] else encode_dn_loop dn (dn.length + 1) 0) ++ [0]

/-- `DNS::add_query` (dns.cpp): encode the name, append big-endian type
and class, rewrite pointers in the three later sections with threshold
`answers_idx_`, insert the new bytes at `answers_idx_`, and increment
the (16-bit) question count. -/
def add_query (st : DNSState) (dname : List Nat) (qtype qclass : Nat) : DNSState :=
  let new_str := encode_domain_name dname ++
    [qtype / 256 % 256, qtype % 256, qclass / 256 % 256, qclass % 256]
  let offset := new_str.length
  let threshold := st.answers_idx
  let r1 := update_records st.records st.answers_idx st.answers threshold offset
  let r2 := update_records r1.1 st.authority_idx st.authority threshold offset
  let r3 := update_records r2.1 st.additional_idx st.additional threshold offset
  { st with
    records := r3.1.take threshold ++ new_str ++ r3.1.drop threshold,
    answers_idx := r1.2,
    authority_idx := r2.2,
    additional_idx := r3.2,
    questions := (st.questions + 1) % 65536 }

/-- Loop of `DNS::compose_name` (dns.cpp).  `p` is the current index
into `records_data`, `endp` remembers the position just past the first
compression pointer, `out` is the dotted name built so far.  Pointer
targets are bounds-checked (`index < 0x0c` or target past the end raises
`malformed`), label copies are bounds-checked and capped at 255 output
bytes.  Nothing bounds the pointer chase itself, so the loop takes fuel;
`outOfFuel` for every fuel means the C++ loop diverges.  Reading the
length byte past the end of the buffer is undefined behaviour in the
source and is modelled as `oob`. -/
def compose_name_loop (data : List Nat) :
    Nat → Nat → Option Nat → List Nat → Except CErr (List Nat × Nat)
  | 0, _, _, _ => .error .outOfFuel
  | fuel + 1, p, endp, out =>
    if p < data.length then
      let b := data.getD p 0
      if b = 0 then .ok (out, match endp with | some e => e | none => p + 1)
      else if is_offset_label b then
        if data.length < p + 2 then .error .malformed
        else
          let idx := (b * 256 + data.getD (p + 1) 0) &&& 0x3FFF
          if idx < 12 then .error .malformed
          else if data.length ≤ idx - 12 then .error .malformed
          else compose_name_loop data fuel (idx - 12) (some (endp.getD (p + 2))) out
      else
        if data.length < p + 1 + b then .error .malformed
        else if 255 < out.length + b + 1 then .error .malformed
        else compose_name_loop data fuel (p + 1 + b) endp
          (out ++ (if out.isEmpty then [] else [46]) ++ ((data.drop (p + 1)).take b))
    else .error .oob

/-- `DNS::compose_name` (dns.cpp): returns the dotted name and the
number of bytes consumed at the original stream position (`end_ptr -
start_ptr`, where `end_ptr` is just past the first pointer, or just past
the terminating zero when no pointer occurred). -/
def compose_name (data : List Nat) (start fuel : Nat) :
    Except CErr (List Nat × Nat) :=
  (compose_name_loop data fuel start none []).map (fun r => (r.1, r.2 - start))

/-- Fuel that dominates every terminating run of `compose_name`: a
terminating run has at most 256 label steps (the output grows and is
capped at 255 bytes) separated by pointer stretches that cannot revisit
a position (the state would repeat and the loop diverge). -/
def compose_fuel (data : List Nat) : Nat := (data.length + 2) * 300

/-- One decoded resource record, as produced by `DNS::convert_records`:
owner name, data bytes (raw bytes, or the decoded domain name for the
name-carrying types), type, class and TTL. -/
structure Resource where
  dname : List Nat
  rdata : List Nat
  rtype : Nat
  rclass : Nat
  ttl : Nat
deriving DecidableEq

/-- `DNS::convert_records` (dns.cpp): decode records from
`records_data` between the current position and `e`.  Per record:
`compose_name` then skip its consumed bytes, read type/class/TTL/size
big-endian, skip the MX preference (16-bit size wraps), `can_read` the
data size, then read the data — 4 bytes for A(1), 16 for AAAA(28), a
composed name for NS(2)/CNAME(5)/DNAM(39)/PTR(12)/MX(15), raw bytes
otherwise. -/
def convert_records (data : List Nat) (e : Nat) :
    Nat → Nat → Except CErr (List Resource)
  | 0, _ => .error .outOfFuel
  | fuel + 1, pos =>
    if pos < e then do
      let r ← compose_name data pos (compose_fuel data)
      if e < pos + r.2 then .error .malformed
      else
        let p1 := pos + r.2
        if e < p1 + 10 then .error .malformed
        else
          let rtype := be16 (data.getD p1 0) (data.getD (p1 + 1) 0)
          let rclass := be16 (data.getD (p1 + 2) 0) (data.getD (p1 + 3) 0)
          let ttl := be32 (data.getD (p1 + 4) 0) (data.getD (p1 + 5) 0)
            (data.getD (p1 + 6) 0) (data.getD (p1 + 7) 0)
          let dsize0 := be16 (data.getD (p1 + 8) 0) (data.getD (p1 + 9) 0)
          let p2 := p1 + 10
          if rtype = 15 ∧ e < p2 + 2 then .error .malformed
          else
            let p3 := if rtype = 15 then p2 + 2 else p2
            let dsize := if rtype = 15 then (dsize0 + 65534) % 65536 else dsize0
            if e < p3 + dsize then .error .malformed
            else do
              let rv : List Nat × Nat ←
                if rtype = 28 then
                  if e < p3 + 16 then .error .malformed
                  else .ok ((data.drop p3).take 16, p3 + 16)
                else if rtype = 1 then
                  if e < p3 + 4 then .error .malformed
                  else .ok ((data.drop p3).take 4, p3 + 4)
                else if rtype = 2 ∨ rtype = 5 ∨ rtype = 39 ∨ rtype = 12 ∨ rtype = 15 then do
                  let r2 ← compose_name data p3 (compose_fuel data)
                  .ok (r2.1, p3 + dsize)
                else .ok ((data.drop p3).take dsize, p3 + dsize)
              let rest ← convert_records data e fuel rv.2
              .ok (⟨r.1, rv.1, rtype, rclass, ttl⟩ :: rest)
    else .ok []

/-- `DNS::answers` (dns.cpp): decode the `[answers_idx, authority_idx)`
range of `records_data` when the section starts inside it. -/
def answers_records (st : DNSState) : Except CErr (List Resource) :=
  if st.answers_idx < st.records.length then
    convert_records st.records st.authority_idx (st.records.length + 1) st.answers_idx
  else .ok []

/-- `IEEE802_11::parse_tagged_parameters` (in the 802.11 implementation
file): decode {tag, length, value} triplets while at least two bytes
remain; when a declared length exceeds the remaining bytes, stop
silently, keeping the parameters decoded so far. -/
def parse_tagged_parameters : List Nat → List (Nat × Nat × List Nat)
  | t :: l :: rest =>
    if rest.length < l then []
    else (t, l, rest.take l) :: parse_tagged_parameters (rest.drop l)
  | _ => []
termination_by buf => buf.length
decreasing_by simp; omega

/-- Wire encoding of a tagged-parameter list: each parameter is its tag
byte, its length byte and its value bytes. -/
def encode_tagged (ps : List (Nat × List Nat)) : List Nat :=
  (ps.map (fun p => p.1 :: p.2.length :: p.2)).flatten

/-- The inner PDU owned by an IPv6 unit: either the `RawPDU` fallback
holding raw bytes, or some other protocol unit abstracted as a kind tag
plus its bytes (the catalogue of concrete units is outside the three
source files). -/
inductive InnerPDU where
  | raw : List Nat → InnerPDU
  | pdu : Nat → List Nat → InnerPDU
deriving DecidableEq

/-- One IPv6 extension header as stored by the parser: the `option`
byte (the constructor receives the freshly read `ext_type`) and the
payload bytes (total on-wire size minus the two control bytes). -/
structure ExtHeader where
  option : Nat
  data : List Nat
deriving DecidableEq

/-- Modelled from the spec: `IPv6::is_extension_header` (ipv6.cpp) tests
membership in the `ExtensionHeader` enum of `ipv6.h`, which is not among
the provided sources; the spec lists HOP_BY_HOP, ROUTING, FRAGMENT,
AUTHENTICATION, SECURITY_ENCAPSULATION, DESTINATION_OPTIONS, MOBILITY,
DESTINATION_ROUTING_OPTIONS and NO_NEXT_HEADER, whose IANA protocol
numbers are 0, 43, 44, 51, 50, 60, 135 and 59. -/
def is_extension_header (h : Nat) : Bool :=
  h == 0 || h == 43 || h == 44 || h == 51 || h == 50 || h == 60 || h == 135 || h == 59

/-- The in-memory state of an `IPv6` PDU: the 40 raw fixed-header bytes
(the C++ `ipv6_header` struct has exactly the wire layout), the
extension-header list and the optional inner PDU. -/
structure IPv6State where
  raw : List Nat
  exts : List ExtHeader
  inner : Option InnerPDU
deriving DecidableEq

/-- Extension-header loop of the `IPv6(const uint8_t*, uint32_t)`
constructor (ipv6.cpp): while bytes remain, an extension-header id reads
the next-header byte and the length byte, computes the total size
`(length + 1) * 8`, checks `can_read(ext_size)` against the bytes left
after the two control bytes, stores the header and continues; a
non-extension id resolves the inner PDU via the dispatch registry, the
IPv6 allocator registry, or the `RawPDU` fallback, and stops.  The two
registries live outside the provided sources and are passed as
parameters.  Each iteration consumes at least 8 bytes, so the
`buf.length + 1` fuel passed by `parse_ipv6` covers every run. -/
def parse_ipv6_loop (dispatch alloc : Nat → List Nat → Option InnerPDU)
    (buf : List Nat) :
    Nat → Nat → Nat → List ExtHeader → Except CErr (List ExtHeader × Option InnerPDU)
  | 0, _, _, _ => .error .outOfFuel
  | fuel + 1, pos, current, acc =>
    if pos < buf.length then
      if is_extension_header current then
        if buf.length < pos + 2 then .error .malformed
        else
          let ext_type := buf.getD pos 0
          let ext_size := (buf.getD (pos + 1) 0 + 1) * 8
          let payload := ext_size - 2
          if buf.length - (pos + 2) < ext_size then .error .malformed
          else parse_ipv6_loop dispatch alloc buf fuel (pos + 2 + payload) ext_type
            (acc ++ [⟨ext_type, (buf.drop (pos + 2)).take payload⟩])
      else
        .ok (acc, some (match dispatch current (buf.drop pos) with
          | some p => p
          | none => match alloc current (buf.drop pos) with
            | some p => p
            | none => .raw (buf.drop pos)))
    else .ok (acc, none)

/-- The `IPv6(const uint8_t*, uint32_t)` constructor (ipv6.cpp): read
the 40-byte fixed header (`malformed` on under-run), then run the
extension-header loop starting from the header's `next_header` byte. -/
def parse_ipv6 (dispatch alloc : Nat → List Nat → Option InnerPDU)
    (buf : List Nat) : Except CErr IPv6State :=
  if buf.length < 40 then .error .malformed
  else (parse_ipv6_loop dispatch alloc buf (buf.length + 1) 40 (buf.getD 6 0) []).map
    (fun r => ⟨buf.take 40, r.1, r.2⟩)

/-- `IPv6::write_header` (ipv6.cpp): emit the option byte, the length
field divided by 8, and the payload bytes.  Modelled from the spec:
`ext_header::length_field` of the out-of-scope PDU option class returns
the stored payload size, and the spec's serialize algorithm writes
`data_size/8` as the length byte. -/
def ext_bytes (h : ExtHeader) : List Nat :=
  h.option :: (h.data.length / 8) :: h.data

/-- Serialized bytes of the extension-header list, in order. -/
def exts_bytes (hs : List ExtHeader) : List Nat := (hs.map ext_bytes).flatten

/-- Overwrite the option byte of the last extension header, as
`ext_headers_.back().option(value)` does. -/
def set_last_option : List ExtHeader → Nat → List ExtHeader
  | [], _ => []
  | [h], v => [⟨v, h.data⟩]
  | h :: h2 :: t, v => h :: set_last_option (h2 :: t) v

/-- `IPv6::set_last_next_header` (ipv6.cpp): with no extension headers
overwrite the fixed header's `next_header` byte (offset 6), otherwise
the last extension header's option byte. -/
def set_last_next_header (st : IPv6State) (v : Nat) : IPv6State :=
  if st.exts.isEmpty then { st with raw := st.raw.set 6 v }
  else { st with exts := set_last_option st.exts v }

/-- `IPv6::write_serialization` (ipv6.cpp): with an inner PDU, compute
its wire discriminator — `Internals::pdu_flag_to_ip_type` (0xff when
unknown) with the IPv6 allocator-registry fallback, both outside the
provided sources and passed as `flagOf` / `regId` — and call
`set_last_next_header`; then store `total_sz - 40` (truncated to 16
bits, big-endian at header offsets 4 and 5) as the payload length and
emit the fixed header followed by the extension headers. -/
def write_serialization (flagOf : InnerPDU → Nat) (regId : InnerPDU → Option Nat)
    (st : IPv6State) (total_sz : Nat) : IPv6State × List Nat :=
  let st1 := match st.inner with
    | some i =>
      let f := flagOf i
      let f2 := if f = 255 then (match regId i with | some v => v | none => f) else f
      set_last_next_header st f2
    | none => st
  let pl := ((total_sz + 4294967296 - 40) % 4294967296) % 65536
  let st2 := { st1 with raw := (st1.raw.set 4 (pl / 256)).set 5 (pl % 256) }
  (st2, st2.raw ++ exts_bytes st2.exts)

/-- The discriminator the serializer will write for an inner PDU, when
one is registered: `pdu_flag_to_ip_type` when it knows the kind,
otherwise the IPv6 allocator registry. -/
def eff_disc (flagOf : InnerPDU → Nat) (regId : InnerPDU → Option Nat)
    (i : InnerPDU) : Option Nat :=
  if flagOf i = 255 then regId i else some (flagOf i)

/-- Source address of an IPv6 unit: header bytes 8–23. -/
def src_addr (st : IPv6State) : List Nat := (st.raw.drop 8).take 16

/-- Destination address of an IPv6 unit: header bytes 24–39. -/
def dst_addr (st : IPv6State) : List Nat := (st.raw.drop 24).take 16

/-- Source address field of a candidate reply buffer. -/
def cand_src (buf : List Nat) : List Nat := (buf.drop 8).take 16

/-- Destination address field of a candidate reply buffer. -/
def cand_dst (buf : List Nat) : List Nat := (buf.drop 24).take 16

/-- Extension-header walk of `IPv6::matches_response` (ipv6.cpp): while
more than 8 bytes remain and the current id is an extension header,
reject when the header's `(length + 1) * 8` size overruns, otherwise
step past it; afterwards delegate to the inner PDU's `matches_response`
(passed as `innerM`) unless the chain still names an extension
header. -/
def ext_walk (innerM : InnerPDU → List Nat → Bool) (ip : InnerPDU)
    (buf : List Nat) (ptr tsz current : Nat) : Bool :=
  if 8 < tsz ∧ is_extension_header current then
    if tsz < (buf.getD (ptr + 1) 0 + 1) * 8 then false
    else ext_walk innerM ip buf (ptr + (buf.getD (ptr + 1) 0 + 1) * 8)
      (tsz - (buf.getD (ptr + 1) 0 + 1) * 8) (buf.getD ptr 0)
  else if is_extension_header current then false
  else innerM ip (buf.drop ptr)
termination_by tsz
decreasing_by omega

/-- `IPv6::matches_response` (ipv6.cpp): require at least 40 bytes; the
unit's source must equal the candidate's destination, and either the
unit's destination equals the candidate's source or the unit's own
destination begins with the bytes ff 02; with no inner PDU that is
enough, otherwise the extension headers of the candidate are skipped
and the inner PDU is consulted. -/
def matches_response (innerM : InnerPDU → List Nat → Bool)
    (st : IPv6State) (buf : List Nat) : Bool :=
  if buf.length < 40 then false
  else if src_addr st = cand_dst buf ∧
      (dst_addr st = cand_src buf ∨
        (st.raw.getD 24 0 = 255 ∧ st.raw.getD 25 0 = 2)) then
    match st.inner with
    | none => true
    | some ip => ext_walk innerM ip buf 40 (buf.length - 40) (buf.getD 6 0)
  else false

/-- One routing-table entry as used by the
`NetworkInterface(IPv4Address)` constructor: destination, mask and
metric as 32-bit values, plus the interface name. -/
structure RouteEntry where
  destination : Nat
  mask : Nat
  metric : Nat
  iface : String
deriving DecidableEq

/-- The best-match loop of `NetworkInterface::NetworkInterface(IPv4Address)`
(network_interface.cpp): an entry matches when `(ip & mask) ==
destination`; it replaces the current best when there is none yet, or
its mask is larger, or its metric is smaller. -/
def best_route (ip : Nat) : List RouteEntry → Option RouteEntry → Option RouteEntry
  | [], best => best
  | e :: rest, best =>
    if ip &&& e.mask = e.destination then
      match best with
      | none => best_route ip rest (some e)
      | some b =>
        if e.mask > b.mask ∨ e.metric < b.metric then best_route ip rest (some e)
        else best_route ip rest (some b)
    else best_route ip rest best

/-- `NetworkInterface::NetworkInterface(IPv4Address)`
(network_interface.cpp): the loopback address 127.0.0.1 resolves to the
platform loopback device name; otherwise the best-match loop runs over
the routing table and `invalid_interface` is raised when nothing
matched.  `resolve_index` is an OS collaborator, so the chosen
interface is reported by name. -/
def interface_from_ip (ip : Nat) (entries : List RouteEntry) : Except CErr String :=
  if ip = 0x7F000001 then .ok "lo"
  else match best_route ip entries none with
    | none => .error .invalidInterface
    | some b => .ok b.iface

/-- Byte offset, inside the serialized extension-header area, of the
option byte of the last extension header: the summed sizes of all
headers before it. -/
def off_last : List ExtHeader → Nat
  | [] => 0
  | [_] => 0
  | h :: h2 :: t => (h.data.length + 2) + off_last (h2 :: t)

/-- A DNS response: one question for the name "a" (type A, class IN)
followed by one DNAME(39) answer whose owner name and whose rdata are
both the compression pointer `c0 0c` (absolute target 12, the question
name). -/
def c1buf : List Nat := [0, 0, 0, 0, 0, 1, 0, 1, 0, 0, 0, 0] ++
  [1, 97, 0, 0, 1, 0, 1] ++ [192, 12, 0, 39, 0, 1, 0, 0, 0, 0, 0, 2, 192, 12]

/-- The DNS state that parsing `c1buf` yields. -/
def c1st0 : DNSState := ⟨[0, 0, 0, 0], 1, 1, 0, 0,
  [1, 97, 0, 0, 1, 0, 1] ++ [192, 12, 0, 39, 0, 1, 0, 0, 0, 0, 0, 2, 192, 12], 7, 21, 21⟩

/-- `c1st0` after adding the query "bb" type A class IN (14 inserted
bytes in total: a 10-byte encoded name would give the same shape; here
the encoded name is 4 bytes and the insertion size is 8). -/
def c1st1 : DNSState := add_query c1st0 [98, 98] 1 1

/-- A DNS response with one question for "a" and one A answer whose
owner name is the compression pointer `c0 0c` (absolute target 12). -/
def c2buf : List Nat := [0, 0, 0, 0, 0, 1, 0, 1, 0, 0, 0, 0] ++
  [1, 97, 0, 0, 1, 0, 1] ++ [192, 12, 0, 1, 0, 1, 0, 0, 0, 0, 0, 4, 1, 2, 3, 4]

/-- The DNS state that parsing `c2buf` yields. -/
def c2st0 : DNSState := ⟨[0, 0, 0, 0], 1, 1, 0, 0,
  [1, 97, 0, 0, 1, 0, 1] ++ [192, 12, 0, 1, 0, 1, 0, 0, 0, 0, 0, 4, 1, 2, 3, 4], 7, 23, 23⟩

/-- `c2st0` after adding the query "bb" type A class IN. -/
def c2st1 : DNSState := add_query c2st0 [98, 98] 1 1

/-- A dispatch table with nothing registered. -/
def dispatch0 : Nat → List Nat → Option InnerPDU := fun _ _ => none

/-- The 40-byte IPv6 buffer of the empty-payload scenario:
`60 00 00 00 00 00 3b 40`, source `::1`, destination `::1`. -/
def c4buf : List Nat := [0x60, 0, 0, 0, 0, 0, 0x3B, 0x40] ++
  (List.replicate 15 0 ++ [1]) ++ (List.replicate 15 0 ++ [1])

/-- The result of parsing `c4buf`. -/
def c4st : IPv6State := ⟨c4buf, [], none⟩

/-- A 48-byte IPv6 buffer: fixed header with next_header HOP_BY_HOP and
payload length 8, followed by one extension header `3b 00 ...` whose
length byte 0 claims `(0 + 1) * 8 = 8` bytes — exactly the 8 bytes
present. -/
def c5buf : List Nat := [0x60, 0, 0, 0, 0, 8, 0, 0x40] ++
  (List.replicate 15 0 ++ [1]) ++ (List.replicate 15 0 ++ [1]) ++
  [59, 0, 0, 0, 0, 0, 0, 0]

/-- Fixed header of an IPv6 unit with source `::1` and destination
`::2`. -/
def c6raw : List Nat := [0x60, 0, 0, 0, 0, 0, 59, 64] ++
  (List.replicate 15 0 ++ [1]) ++ (List.replicate 15 0 ++ [2])

/-- An IPv6 unit with source A = `::1`, destination B = `::2` and no
inner PDU. -/
def c6st : IPv6State := ⟨c6raw, [], none⟩

/-- A candidate reply whose source is B = `::2` and whose destination is
the multicast address `ff02::1`. -/
def c6cand : List Nat := [0x60, 0, 0, 0, 0, 0, 59, 64] ++
  (List.replicate 15 0 ++ [2]) ++ ([255, 2] ++ List.replicate 13 0 ++ [1])

/-- A candidate reply whose source is B = `::2` and whose destination is
A = `::1`. -/
def c6match : List Nat := [0x60, 0, 0, 0, 0, 0, 59, 64] ++
  (List.replicate 15 0 ++ [2]) ++ (List.replicate 15 0 ++ [1])

/-- An inner matcher that rejects everything (irrelevant to units with
no inner PDU). -/
def innerM0 : InnerPDU → List Nat → Bool := fun _ _ => false

/-- Routing entry: destination 10.0.0.0/24, metric 10, device eth0. -/
def c8e1 : RouteEntry := ⟨0x0A000000, 0xFFFFFF00, 10, "eth0"⟩

/-- Routing entry: destination 10.0.0.0/8, metric 5, device eth1. -/
def c8e2 : RouteEntry := ⟨0x0A000000, 0xFF000000, 5, "eth1"⟩

/-- A discriminator table mapping every PDU kind to 6 (TCP). -/
def flag6 : InnerPDU → Nat := fun _ => 6

/-- An IPv6 allocator registry with nothing registered. -/
def reg_none : InnerPDU → Option Nat := fun _ => none

/-- An IPv6 unit with no extension headers and an inner PDU of an
abstract kind. -/
def c3st : IPv6State := ⟨List.replicate 40 0, [], some (InnerPDU.pdu 6 [])⟩

/-- From the state reached after dereferencing the self-referential
pointer of `[0xc0, 0x0c]` (position 0, consumed-end marker already set),
`compose_name_loop` makes no progress: each step returns to the same
state, so every fuel is exhausted. -/
theorem compose_name_loop_self_ptr (out : List Nat) :
    ∀ n, compose_name_loop [192, 12] n 0 (some 2) out = .error .outOfFuel := by
  intro n
  induction n with
  | zero => rfl
  | succ n ih => exact ih

/-- C7: the claim that `compose_name` terminates for every
`records_data` content is false: on the two-byte content `c0 0c` —
a compression pointer whose absolute target 12 is the pointer itself,
which passes every bounds check — the decode loop never finishes, for
any amount of fuel.  The 255-byte name bound never fires because no
label byte is ever consumed. -/
theorem compose_name_self_pointer_diverges :
    ∀ n, compose_name [192, 12] 0 n = .error .outOfFuel := by
  intro n
  cases n with
  | zero => rfl
  | succ n =>
    unfold compose_name
    have h : compose_name_loop [192, 12] (n + 1) 0 none [] =
        compose_name_loop [192, 12] n 0 (some 2) [] := rfl
    rw [h, compose_name_loop_self_ptr]
    rfl

/-- C1: pointer maintenance under insertion is incomplete.  `c1buf`
parses to `c1st0` with `answers_idx = 7`; adding a query inserts 8
bytes at threshold 7.  The answer's owner-name pointer (target 12 > 7)
is duly rewritten to target 20 (`c0 14` at offsets 15/16 of the shifted
data), but the identical pointer inside the DNAME(39) record's rdata
(also target 12 > 7, at offsets 27/28) is left at `c0 0c`, because
`contains_dname` does not cover DNAME, contradicting the claim (and the
spec, which lists DNAM among the maintained types). -/
theorem dns_dname_rdata_pointer_not_maintained :
    parse_dns c1buf = .ok c1st0 ∧
    c1st0.answers_idx = 7 ∧
    contains_dname 39 = false ∧
    c1st1.records.getD 15 0 = 192 ∧ c1st1.records.getD 16 0 = 20 ∧
    c1st1.records.getD 27 0 = 192 ∧ c1st1.records.getD 28 0 = 12 :=
  ⟨rfl, rfl, rfl, rfl, rfl, rfl, rfl⟩

/-- C2: section consistency does not survive `add_query`.  `c2buf`
parses to `c2st0`, whose answers section (count 1) decodes fine.  After
one `add_query`, the header still counts one answer, but decoding the
answers range fails with `malformed`: the answer's name pointer had
absolute target 12 (the question name, *below* the insertion point at
records offset 7 = absolute 19), yet `update_dname` compared the
absolute target against the records-relative threshold 7 and shifted it
to 20, which lands inside the newly inserted query bytes. -/
theorem dns_section_consistency_broken_by_add_query :
    parse_dns c2buf = .ok c2st0 ∧
    c2st0.answers = 1 ∧
    (answers_records c2st0).isOk = true ∧
    c2st1.answers = 1 ∧
    answers_records c2st1 = .error .malformed :=
  ⟨rfl, rfl, rfl, rfl, rfl⟩

/-- C5: an IPv6 buffer whose single extension header claims
`(0 + 1) * 8 = 8` bytes and holds exactly those 8 bytes is rejected
with `malformed` by the parser, whichever dispatch tables are
registered: `can_read(ext_size)` runs after the two control bytes were
already consumed, so only 6 bytes remain of the 8 demanded. -/
theorem ipv6_exact_fit_extension_rejected :
    ∀ dispatch alloc, parse_ipv6 dispatch alloc c5buf = .error .malformed :=
  fun _ _ => rfl

/-- C4 counterexample: parsing the 40-byte empty-payload buffer
succeeds, but the resulting unit's inner PDU is absent (`none`), not a
`RawPDU` of length 0 as the claim states — the parse loop never runs
because no bytes remain after the fixed header. -/
theorem ipv6_empty_payload_inner_is_absent :
    (parse_ipv6 dispatch0 dispatch0 c4buf).map (fun s => s.inner) = .ok none ∧
    (parse_ipv6 dispatch0 dispatch0 c4buf).map (fun s => s.inner) ≠
      .ok (some (InnerPDU.raw [])) :=
  ⟨rfl, fun h => Option.noConfusion (Except.ok.inj h)⟩

/-- C4 amended: parsing the 40-byte empty-payload buffer succeeds for
every registered dispatch and allocator table, the resulting unit has
no inner PDU at all, and re-serialization reproduces the input
byte-for-byte. -/
theorem ipv6_empty_payload_roundtrip :
    ∀ (dispatch alloc : Nat → List Nat → Option InnerPDU)
      (flagOf : InnerPDU → Nat) (regId : InnerPDU → Option Nat),
      parse_ipv6 dispatch alloc c4buf = .ok c4st ∧
      (write_serialization flagOf regId c4st 40).2 = c4buf :=
  fun _ _ _ _ => ⟨rfl, rfl⟩

/-- C8: the routing-table scan does not implement longest-mask-first.
For destination 10.0.0.1 both entries match, yet the /8 entry with the
smaller metric replaces the earlier /24 entry (the update condition is
a disjunction, `mask > best.mask || metric < best.metric`), so the
constructor picks eth1 although eth0 has the strictly longer mask. -/
theorem route_selection_prefers_smaller_mask :
    (0x0A000001 &&& c8e1.mask = c8e1.destination) ∧
    (0x0A000001 &&& c8e2.mask = c8e2.destination) ∧
    c8e2.mask < c8e1.mask ∧
    interface_from_ip 0x0A000001 [c8e1, c8e2] = .ok "eth1" := by
  refine ⟨by decide, by decide, by decide, rfl⟩

/-- Serialized extension headers expose, at the offset of the last
header, the option byte installed by `set_last_option`. -/
theorem exts_bytes_set_last (v : Nat) :
    ∀ hs : List ExtHeader, hs ≠ [] →
      (exts_bytes (set_last_option hs v))[off_last hs]? = some v := by
  intro hs
  induction hs with
  | nil => intro h; exact absurd rfl h
  | cons h t iht =>
    intro _
    cases t with
    | nil => rfl
    | cons h2 t2 =>
      have hsl : set_last_option (h :: h2 :: t2) v =
          h :: set_last_option (h2 :: t2) v := rfl
      have hoff : off_last (h :: h2 :: t2) =
          (h.data.length + 2) + off_last (h2 :: t2) := rfl
      rw [hsl, hoff]
      have hb : exts_bytes (h :: set_last_option (h2 :: t2) v) =
          ext_bytes h ++ exts_bytes (set_last_option (h2 :: t2) v) := by
        simp [exts_bytes]
      rw [hb, List.getElem?_append_right (by simp [ext_bytes])]
      have hidx : h.data.length + 2 + off_last (h2 :: t2) - (ext_bytes h).length =
          off_last (h2 :: t2) := by
        simp [ext_bytes]
      rw [hidx]
      exact iht (by simp)

/-- C3: next-header chaining on serialize.  For every IPv6 unit whose
inner PDU has a registered discriminator `d` (`eff_disc`:
`pdu_flag_to_ip_type` with the IPv6 allocator-registry fallback), the
buffer written by `write_serialization` carries `d` in the fixed
header's next_header byte (offset 6) when there are no extension
headers, and in the option byte of the last extension header (offset
`40 + off_last`) otherwise. -/
theorem ipv6_next_header_chaining (flagOf : InnerPDU → Nat)
    (regId : InnerPDU → Option Nat) (st : IPv6State) (total_sz : Nat)
    (i : InnerPDU) (d : Nat)
    (hraw : st.raw.length = 40) (hinner : st.inner = some i)
    (hdisc : eff_disc flagOf regId i = some d) :
    (st.exts = [] →
        ((write_serialization flagOf regId st total_sz).2)[6]? = some d) ∧
    (st.exts ≠ [] →
        ((write_serialization flagOf regId st total_sz).2)[40 + off_last st.exts]? =
          some d) := by
  have hf2 : (if flagOf i = 255 then
      (match regId i with | some v => v | none => flagOf i) else flagOf i) = d := by
    unfold eff_disc at hdisc
    by_cases hf : flagOf i = 255
    · rw [if_pos hf] at hdisc ⊢
      rw [hdisc]
    · rw [if_neg hf] at hdisc ⊢
      exact Option.some.inj hdisc
  constructor
  · intro hext
    unfold write_serialization
    rw [hinner]
    simp only [hf2, set_last_next_header, hext, List.isEmpty_nil, if_true]
    simp only [hext, exts_bytes, List.map_nil, List.flatten_nil, List.append_nil]
    rw [List.getElem?_set_ne (by omega), List.getElem?_set_ne (by omega)]
    exact List.getElem?_set_eq_of_lt d (by omega)
  · intro hext
    unfold write_serialization
    rw [hinner]
    simp only [hf2, set_last_next_header, List.isEmpty_eq_true]
    rw [if_neg hext]
    simp only []
    rw [List.getElem?_append_right (by simp [hraw])]
    have hidx : 40 + off_last st.exts -
        (((st.raw.set 4 ((((total_sz + 4294967296 - 40) % 4294967296) % 65536) / 256)).set 5
          ((((total_sz + 4294967296 - 40) % 4294967296) % 65536) % 256)).length) =
        off_last st.exts := by
      simp [hraw]
    rw [hidx]
    exact exts_bytes_set_last d st.exts hext

/-- Witness for C3: a unit with no extension headers and an inner PDU
whose discriminator resolves to 6 serializes 6 into header byte 6. -/
theorem ipv6_next_header_chaining_witness :
    c3st.raw.length = 40 ∧ c3st.inner = some (InnerPDU.pdu 6 []) ∧
    eff_disc flag6 reg_none (InnerPDU.pdu 6 []) = some 6 ∧
    ((c3st.exts = [] →
        ((write_serialization flag6 reg_none c3st 100).2)[6]? = some 6) ∧
     (c3st.exts ≠ [] →
        ((write_serialization flag6 reg_none c3st 100).2)[40 + off_last c3st.exts]? =
          some 6)) :=
  ⟨rfl, rfl, rfl,
    ipv6_next_header_chaining flag6 reg_none c3st 100 (InnerPDU.pdu 6 []) 6 rfl rfl rfl⟩

/-- C6 counterexample: for the unit with source `::1` and destination
B = `::2` and no inner PDU, the candidate whose source is B and whose
destination is the multicast address `ff02::1` does *not* match, though
the claim says it does: the code requires the candidate's destination
to equal the unit's source, and its multicast test looks at the unit's
own destination, not the candidate's. -/
theorem ipv6_matches_response_multicast_candidate_rejected :
    cand_src c6cand = dst_addr c6st ∧
    c6cand.getD 24 0 = 255 ∧ c6cand.getD 25 0 = 2 ∧
    matches_response innerM0 c6st c6cand = false :=
  ⟨rfl, rfl, rfl, rfl⟩

/-- C6 amended: for every IPv6 unit with no inner PDU, a candidate
matches exactly when it is at least 40 bytes long, its destination
equals the unit's source, and either its source equals the unit's
destination or the unit's *own* destination begins with the bytes
ff 02. -/
theorem ipv6_matches_response_characterization
    (innerM : InnerPDU → List Nat → Bool) (st : IPv6State) (buf : List Nat)
    (h : st.inner = none) :
    matches_response innerM st buf = true ↔
      (40 ≤ buf.length ∧ cand_dst buf = src_addr st ∧
        (cand_src buf = dst_addr st ∨
          (st.raw.getD 24 0 = 255 ∧ st.raw.getD 25 0 = 2))) := by
  unfold matches_response
  rcases Nat.lt_or_ge buf.length 40 with hlen | hlen
  · rw [if_pos hlen]
    constructor
    · intro hfalse; exact absurd hfalse (by simp)
    · intro hr; omega
  · rw [if_neg (by omega)]
    by_cases hc : src_addr st = cand_dst buf ∧
        (dst_addr st = cand_src buf ∨ (st.raw.getD 24 0 = 255 ∧ st.raw.getD 25 0 = 2))
    · rw [if_pos hc, h]
      constructor
      · intro _
        exact ⟨hlen, hc.1.symm, hc.2.imp Eq.symm id⟩
      · intro _; rfl
    · rw [if_neg hc]
      constructor
      · intro hfalse; exact absurd hfalse (by simp)
      · intro hr
        exact absurd ⟨hr.2.1.symm, hr.2.2.imp Eq.symm id⟩ hc

/-- Witness for C6: the candidate with source `::2` and destination
`::1` matches the unit with source `::1`, destination `::2`. -/
theorem ipv6_matches_response_characterization_witness :
    c6st.inner = none ∧
    (matches_response innerM0 c6st c6match = true ↔
      (40 ≤ c6match.length ∧ cand_dst c6match = src_addr c6st ∧
        (cand_src c6match = dst_addr c6st ∨
          (c6st.raw.getD 24 0 = 255 ∧ c6st.raw.getD 25 0 = 2)))) :=
  ⟨rfl, ipv6_matches_response_characterization innerM0 c6st c6match rfl⟩

/-- C9: tagged-parameter decoding is greedy and failure-free.  For
every well-formed prefix of parameters and every malformed tail —
fewer than two bytes left, or a declared length exceeding the remaining
bytes — the parser returns exactly the encoded parameters and discards
the tail silently. -/
theorem parse_tagged_parameters_greedy_prefix
    (ps : List (Nat × List Nat)) (tail : List Nat)
    (hwf : ∀ p ∈ ps, p.2.length ≤ 255)
    (htail : tail.length < 2 ∨ ∃ t l s, tail = t :: l :: s ∧ s.length < l) :
    parse_tagged_parameters (encode_tagged ps ++ tail) =
      ps.map (fun p => (p.1, p.2.length, p.2)) := by
  induction ps with
  | nil =>
    simp only [encode_tagged, List.map_nil, List.flatten_nil, List.nil_append]
    rcases htail with h | ⟨t, l, s, rfl, hl⟩
    · cases tail with
      | nil => rw [parse_tagged_parameters.eq_def]
      | cons a t2 =>
        cases t2 with
        | nil => rw [parse_tagged_parameters.eq_def]
        | cons b t3 => simp at h; omega
    · rw [parse_tagged_parameters]
      simp [hl]
  | cons p ps ih =>
    have hrw : encode_tagged (p :: ps) ++ tail =
        p.1 :: p.2.length :: (p.2 ++ (encode_tagged ps ++ tail)) := by
      simp [encode_tagged, List.append_assoc]
    rw [hrw, parse_tagged_parameters]
    rw [if_neg (by simp)]
    rw [List.take_left, List.drop_left]
    rw [ih (fun q hq => hwf q (List.mem_cons_of_mem _ hq))]
    simp

/-- Witness for C9: one parameter (tag 0, value [7]) followed by the
malformed tail `01 05` (declares 5 bytes, none remain) decodes to just
that parameter. -/
theorem parse_tagged_parameters_greedy_prefix_witness :
    (∀ p ∈ ([(0, [7])] : List (Nat × List Nat)), p.2.length ≤ 255) ∧
    parse_tagged_parameters (encode_tagged [(0, [7])] ++ [1, 5]) = [(0, 1, [7])] :=
  ⟨by decide,
   by
    have h := parse_tagged_parameters_greedy_prefix [(0, [7])] [1, 5]
      (by decide) (Or.inr ⟨1, 5, [], rfl, by decide⟩)
    simpa using h⟩

/-- C10: every domain-name walker classifies a length byte through
`is_offset_label` — the shared test `(value & 0xc0) != 0` of
`skip_to_dname_end`, `compose_name` and `update_dname` — so every byte
in 0x40–0xBF, which is neither a valid label length (1–63) nor a
pointer tag with both top bits set, is accepted as a two-byte pointer:
the skip loop consumes exactly two bytes and succeeds, and the update
loop steps over exactly two bytes without rejecting. -/
theorem dname_walkers_lax_pointer_classification (b : Nat)
    (h1 : 64 ≤ b) (h2 : b ≤ 191) :
    is_offset_label b = true ∧
    ¬(1 ≤ b ∧ b ≤ 63) ∧
    b &&& 0xC0 ≠ 0xC0 ∧
    (∀ c rest fuel, skip_dname_loop (b :: c :: rest) (fuel + 1) 0 = .ok 2) ∧
    (∀ c fuel, update_dname_loop [b, c] 0x3FFF 1 (fuel + 1) 0 = ([b, c], 2)) := by
  have hp : is_offset_label b = true := by interval_cases b <;> decide
  refine ⟨hp, by omega, by interval_cases b <;> decide, ?_, ?_⟩
  · intro c rest fuel
    have hb : b ≠ 0 := by omega
    simp only [skip_dname_loop, List.getD_cons_zero, hp]
    rw [if_pos (by simp), if_neg hb, if_true, if_neg (by simp)]
  · intro c fuel
    have hb : b ≠ 0 := by omega
    have hle : (b * 256 + c) &&& 0x3FFF ≤ 0x3FFF := Nat.and_le_right
    simp only [update_dname_loop, List.getD_cons_zero, List.getD_cons_succ, hp]
    rw [if_pos (by simp), if_neg hb, if_true, if_neg (by omega)]

/-- Witness for C10 at byte 0x40. -/
theorem dname_walkers_lax_pointer_classification_witness :
    (64 ≤ 64 ∧ 64 ≤ 191) ∧
    (is_offset_label 64 = true ∧
     ¬(1 ≤ 64 ∧ 64 ≤ 63) ∧
     (64 : Nat) &&& 0xC0 ≠ 0xC0 ∧
     (∀ c rest fuel, skip_dname_loop (64 :: c :: rest) (fuel + 1) 0 = .ok 2) ∧
     (∀ c fuel, update_dname_loop [64, c] 0x3FFF 1 (fuel + 1) 0 = ([64, c], 2))) :=
  ⟨⟨by decide, by decide⟩,
   dname_walkers_lax_pointer_classification 64 (by decide) (by decide)⟩

end Tins

